import Mathlib

set_option autoImplicit false

/-!
Shallow embedding of `src/HanziWriter.js` (the HanziWriter controller of the
hanzi-writer library), together with models of the collaborators the
controller drives (the Animator generation scheduler, the loading manager's
failure flag, the Quiz object) where only their interface is visible from
this file.  JavaScript truthiness on numeric option values (null and 0 are
falsy) is embedded via `truthy` on `Option ℚ`.  Asynchronous promise chains
are embedded by running each public operation atomically and passing the
loader outcome (`loadOk` / `reloadOk`) as an explicit parameter; the event
trace returned by each operation records the order in which externally
visible effects happen, with `.then` continuations placed after the
synchronous part, as they run in JS.
-/

namespace HW

/-- Modelled from the spec: the Animator (not under src/) keeps one current
animation generation per stream; `animate` starts a fresh generation
(implicitly superseding the previous one) and `cancel` invalidates the
current one.  Generations are identified by a counter so that a superseded
generation can never be confused with a later one. -/
structure AnimatorState where
  nextGen : Nat
  activeGen : Option Nat
deriving DecidableEq, Repr

namespace Animator

def init : AnimatorState := { nextGen := 0, activeGen := none }

/-- Modelled from the spec: `animate(effectFn, options)` schedules the effect
against a fresh animation generation, making it the stream's only current
generation.  Returns the new generation's token. -/
def animate (a : AnimatorState) : Nat × AnimatorState :=
  (a.nextGen, { nextGen := a.nextGen + 1, activeGen := some a.nextGen })

/-- Modelled from the spec: `cancel()` invalidates the current generation. -/
def cancel (a : AnimatorState) : AnimatorState :=
  { a with activeGen := none }

/-- A generation token is active when it is the stream's current generation. -/
def isActive (a : AnimatorState) (g : Nat) : Bool :=
  a.activeGen == some g

/-- Modelled from the spec: a pending timer callback belonging to generation
`g` checks validity before applying its visual effect; it applies the effect
(`some ()`) only when `g` is still the current generation, and becomes a
no-op (`none`) otherwise. -/
def runScheduledEffect (a : AnimatorState) (g : Nat) : Option Unit :=
  if isActive a g then some () else none

end Animator

/-- The operations a client can perform on one animation stream. -/
inductive AnimOp where
  | animate
  | cancel
deriving DecidableEq, Repr

def applyAnimOp (a : AnimatorState) : AnimOp → AnimatorState
  | AnimOp.animate => (Animator.animate a).2
  | AnimOp.cancel => Animator.cancel a

def applyAnimOps (a : AnimatorState) (ops : List AnimOp) : AnimatorState :=
  ops.foldl applyAnimOp a

/-- Well-formedness of an animator stream: every generation handed out so far
(in particular the active one) is below the fresh-generation counter. -/
def AnimatorWF (a : AnimatorState) : Prop :=
  ∀ g, a.activeGen = some g → g < a.nextGen

/-- A generation that is dead (superseded or cancelled) and below the
counter. -/
def DeadGen (a : AnimatorState) (g : Nat) : Prop :=
  g < a.nextGen ∧ a.activeGen ≠ some g

/-! ### The perpetual animation loop of `loopCharacterAnimation`

`loopCharacterAnimation` (src/HanziWriter.js lines 81-95) builds the
self-rescheduling continuation

  animateForever = (animation) => {
    if (!animation.isActive()) return null;
    const animatePromise = this._characterRenderer.animate(animation);
    if (!animatePromise) return null;
    return animatePromise.then(() => timeout(delay)).then(() => animateForever(animation));
  }

We embed one run of this continuation with explicit fuel (a lower bound on
the number of iterations that the run is unrolled for; real JS recursion is
unbounded in the active case).  `isActiveAt i` is the value of
`animation.isActive()` observed at the start of iteration `i`, and
`animateOk i` says whether `this._characterRenderer.animate` returns a
promise (rather than null) at iteration `i`.  The trace records the
renderer-animate call and the inter-loop delay of every iteration that
actually runs. -/

inductive LoopEv where
  | animateCall (i : Nat)
  | delay (i : Nat) (ms : Nat)
deriving DecidableEq, Repr

/-- The iteration an event of the loop belongs to. -/
def LoopEv.iter : LoopEv → Nat
  | LoopEv.animateCall i => i
  | LoopEv.delay i _ => i

/-- The unrolled `animateForever` continuation: at each iteration it first
checks `isActiveAt`, returns null (`none`) with nothing scheduled when the
generation is inactive, calls the renderer's animate, returns null with no
delay and no further iteration when that returned no promise, and otherwise
schedules the delay and reschedules itself. -/
def animateForeverRun (isActiveAt animateOk : Nat → Bool) (delayBetweenLoops : Nat) :
    Nat → Nat → Option Unit × List LoopEv
  | 0, _ => (some (), [])
  | fuel + 1, i =>
    if isActiveAt i = false then (none, [])
    else if animateOk i = false then (none, [LoopEv.animateCall i])
    else
      let rest := animateForeverRun isActiveAt animateOk delayBetweenLoops fuel (i + 1)
      (rest.1, LoopEv.animateCall i :: LoopEv.delay i delayBetweenLoops :: rest.2)

/-! ### Option preparation: `_assignOptions` and `_fillWidthAndHeight` -/

/-- JavaScript truthiness of an optional numeric option value: absent
(`null`/`undefined`) and `0` are falsy, every other number is truthy. -/
def truthy : Option ℚ → Bool
  | none => false
  | some v => v != 0

/-- The positioning slice of the options object handled by
`_fillWidthAndHeight`, with a representative unrelated field (`padding`)
to express that the function copies the rest of the object unchanged. -/
structure DisplayOpts where
  width : Option ℚ
  height : Option ℚ
  padding : ℚ
deriving DecidableEq, Repr

/-- Embedding of `HanziWriter.prototype._fillWidthAndHeight`
(src/HanziWriter.js lines 161-174).  `rectW`/`rectH` are the dimensions of
`this._canvas.svg.getBoundingClientRect()`.  The source copies the options
object (`assign({}, options)`) and fills width/height following JS
truthiness. -/
def fillWidthAndHeight (rectW rectH : ℚ) (options : DisplayOpts) : DisplayOpts :=
  if truthy options.width && !truthy options.height then
    { options with height := options.width }
  else if truthy options.height && !truthy options.width then
    { options with width := options.height }
  else if !truthy options.width && !truthy options.height then
    let minDim := min rectW rectH
    { options with width := some minDim, height := some minDim }
  else options

/-- The user-supplied animation-speed options as they reach
`_assignOptions`: `none` models an absent key. -/
structure RawOpts where
  strokeAnimationSpeed : Option ℚ
  strokeAnimationDuration : Option ℚ
  strokeHighlightSpeed : Option ℚ
  strokeHighlightDuration : Option ℚ
deriving DecidableEq, Repr

/-- The corresponding slice of the merged options object produced by
`_assignOptions`.  `defaultOptions` supplies `strokeAnimationSpeed: 1`,
`strokeHighlightSpeed: 2` and `strokeHighlightDuration: 200`; there is no
default `strokeAnimationDuration`. -/
structure MergedOpts where
  strokeAnimationSpeed : ℚ
  strokeHighlightSpeed : ℚ
  strokeHighlightDuration : ℚ
deriving DecidableEq, Repr

/-- Embedding of the speed-backfill part of
`HanziWriter.prototype._assignOptions` (src/HanziWriter.js lines 146-158).
`assign({}, defaultOptions, options)` takes the user's value whenever the
key is present, else the default; the backfill conditions test the
truthiness of the *user-supplied* values, and the division uses the merged
duration (which under the truthy guard equals the user's value). -/
def assignOptions (options : RawOpts) : MergedOpts :=
  let merged : MergedOpts :=
    { strokeAnimationSpeed := options.strokeAnimationSpeed.getD 1
      strokeHighlightSpeed := options.strokeHighlightSpeed.getD 2
      strokeHighlightDuration := options.strokeHighlightDuration.getD 200 }
  let merged1 :=
    if truthy options.strokeAnimationDuration && !truthy options.strokeAnimationSpeed then
      { merged with strokeAnimationSpeed := 500 / options.strokeAnimationDuration.getD 0 }
    else merged
  if truthy options.strokeHighlightDuration && !truthy options.strokeHighlightSpeed then
    { merged1 with strokeHighlightSpeed := 500 / merged1.strokeHighlightDuration }
  else merged1

/-! ### The HanziWriter controller state machine

`HWState` embeds the mutable fields of a `HanziWriter` instance that the
claims are about.  `quiz` holds the id of the active `Quiz` instance
(`null` becomes `none`); `renderer` is `this._hanziWriterRenderer`;
`characterData`, `positioner` and `stateManager` record whether
`this._character`, `this._positioner` and `this._stateManager` hold data
built for the current load.  `loadingFailed` is the loading manager's flag
(the `LoadingManager` itself is not under src/; its flag semantics is
modelled from the spec: loading a character may fail, and failure leaves
the controller with no character data available until a retry).  Each
operation returns the successor state together with a trace of externally
visible effects, in the order the source performs them. -/

inductive QuizMethod where
  | startUserStroke
  | continueUserStroke
  | endUserStroke
deriving DecidableEq, Repr

/-- The renderer effect started by the various public animation methods. -/
inductive EffKind where
  | charShow
  | charHide
  | charAnimate
  | loopAnimate
  | outlineShow
  | outlineHide
deriving DecidableEq, Repr

inductive Ev where
  | quizCancelInvoke
  | quizRefCleared
  | animatorCancel
  | rendererDestroy
  | loadStart (c : Nat)
  | buildCharacter
  | buildPositioner
  | buildRenderer
  | buildStateManager
  | mountRenderer
  | renderState
  | quizConstruct (id : Nat)
  | animStart (g : Nat)
  | effRun (k : EffKind)
  | preventDefault
  | forward (m : QuizMethod)
deriving DecidableEq, Repr

structure HWState where
  animator : AnimatorState
  quiz : Option Nat
  nextQuizId : Nat
  char : Nat
  renderer : Option Unit
  characterData : Option Unit
  positioner : Option Unit
  stateManager : Option Unit
  loadingFailed : Bool
  isLoadingCharData : Bool
deriving DecidableEq, Repr

/-- Embedding of `HanziWriter.prototype.cancelQuiz`
(src/HanziWriter.js lines 119-122): `if (this._quiz) this._quiz.cancel();
this._quiz = null;`.  `quizCancelInvoke` records the call to the quiz
object's `cancel()`, `quizRefCleared` the assignment of `null`. -/
def cancelQuizM (s : HWState) : HWState × List Ev :=
  match s.quiz with
  | some _ => ({ s with quiz := none }, [Ev.quizCancelInvoke, Ev.quizRefCleared])
  | none => ({ s with quiz := none }, [Ev.quizRefCleared])

/-- The constructions performed inside the `loadCharData(char).then(...)`
callback of `setCharacter` on a successful load, in source order. -/
def buildEvents : List Ev :=
  [Ev.buildCharacter, Ev.buildPositioner, Ev.buildRenderer, Ev.buildStateManager,
    Ev.mountRenderer, Ev.renderState]

/-- Embedding of `HanziWriter.prototype.setCharacter`
(src/HanziWriter.js lines 124-142).  The synchronous part cancels the quiz,
stores the character, cancels the animator's current generation, destroys
the previous renderer if present and clears it; then loading starts
(`loadStart`), and the `.then` callback either returns early when loading
failed (leaving `_character`/`_positioner`/`_stateManager` untouched) or
builds the character model, positioner, renderer and state manager and
renders.  `loadOk` is the loader's outcome. -/
def setCharacterM (s : HWState) (c : Nat) (loadOk : Bool) : HWState × List Ev :=
  let r1 := cancelQuizM s
  let s2 := { r1.1 with char := c, animator := Animator.cancel r1.1.animator }
  let destroyEvs := if s2.renderer.isSome then [Ev.rendererDestroy] else []
  let s3 := { s2 with renderer := none }
  if loadOk then
    ({ s3 with
        loadingFailed := false
        isLoadingCharData := false
        characterData := some ()
        positioner := some ()
        renderer := some ()
        stateManager := some () },
      r1.2 ++ [Ev.animatorCancel] ++ destroyEvs ++ (Ev.loadStart c :: buildEvents))
  else
    ({ s3 with loadingFailed := true, isLoadingCharData := false },
      r1.2 ++ [Ev.animatorCancel] ++ destroyEvs ++ [Ev.loadStart c])

/-- Embedding of `HanziWriter.prototype._withData`
(src/HanziWriter.js lines 176-193), unrolled on explicit fuel (the real
recursion re-enters `_withData` at most once after a successful reload,
since the reload leaves `loadingFailed` false).  When loading previously
failed it retries `setCharacter(this._char)` with outcome `reloadOk` and
runs `func` only if the reload succeeded; otherwise it runs `func` after
the (already resolved) load promise.  The third component reports whether
`func` was invoked. -/
def withDataGo (func : HWState → HWState × List Ev) (reloadOk : Bool) :
    Nat → HWState → HWState × List Ev × Bool
  | 0, s => (s, [], false)
  | fuel + 1, s =>
    if s.loadingFailed then
      let r := setCharacterM s s.char reloadOk
      if r.1.loadingFailed then (r.1, r.2, false)
      else
        let r2 := withDataGo func reloadOk fuel r.1
        (r2.1, r.2 ++ r2.2.1, r2.2.2)
    else
      let r := func s
      (r.1, r.2, true)

def withDataM (s : HWState) (reloadOk : Bool)
    (func : HWState → HWState × List Ev) : HWState × List Ev × Bool :=
  withDataGo func reloadOk 2 s

/-- Embedding of `HanziWriter.prototype._animate`
(src/HanziWriter.js lines 239-241): `this._animator.animate(func, options)`
starts a fresh generation against which the effect runs. -/
def animateM (s : HWState) (k : EffKind) : HWState × List Ev :=
  let r := Animator.animate s.animator
  ({ s with animator := r.2 }, [Ev.animStart r.1, Ev.effRun k])

/-- Embedding of `_animateWithData` (src/HanziWriter.js lines 243-245). -/
def animateWithDataM (s : HWState) (reloadOk : Bool) (k : EffKind) :
    HWState × List Ev × Bool :=
  withDataM s reloadOk (fun s0 => animateM s0 k)

/-- `HanziWriter.prototype.showCharacter` (src/HanziWriter.js line 71). -/
def showCharacterM (s : HWState) (reloadOk : Bool) : HWState × List Ev × Bool :=
  animateWithDataM s reloadOk EffKind.charShow

/-- `HanziWriter.prototype.hideCharacter` (src/HanziWriter.js line 74). -/
def hideCharacterM (s : HWState) (reloadOk : Bool) : HWState × List Ev × Bool :=
  animateWithDataM s reloadOk EffKind.charHide

/-- `HanziWriter.prototype.animateCharacter` (src/HanziWriter.js lines
77-80): cancels the quiz, then animates with data. -/
def animateCharacterM (s : HWState) (reloadOk : Bool) : HWState × List Ev × Bool :=
  let r1 := cancelQuizM s
  let r2 := animateWithDataM r1.1 reloadOk EffKind.charAnimate
  (r2.1, r1.2 ++ r2.2.1, r2.2.2)

/-- `HanziWriter.prototype.loopCharacterAnimation` (src/HanziWriter.js lines
81-95): cancels the quiz, then runs the `animateForever` continuation with
data (the continuation itself is embedded as `animateForeverRun`). -/
def loopCharacterAnimationM (s : HWState) (reloadOk : Bool) : HWState × List Ev × Bool :=
  let r1 := cancelQuizM s
  let r2 := animateWithDataM r1.1 reloadOk EffKind.loopAnimate
  (r2.1, r1.2 ++ r2.2.1, r2.2.2)

/-- `HanziWriter.prototype.showOutline` (src/HanziWriter.js line 97). -/
def showOutlineM (s : HWState) (reloadOk : Bool) : HWState × List Ev × Bool :=
  animateWithDataM s reloadOk EffKind.outlineShow

/-- `HanziWriter.prototype.hideOutline` (src/HanziWriter.js line 100). -/
def hideOutlineM (s : HWState) (reloadOk : Bool) : HWState × List Ev × Bool :=
  animateWithDataM s reloadOk EffKind.outlineHide

/-- The function `quiz()` passes to `_withData` (src/HanziWriter.js lines
105-116): cancel the existing quiz, then construct and store the new Quiz
instance. -/
def quizFuncM (s : HWState) : HWState × List Ev :=
  let r1 := cancelQuizM s
  ({ r1.1 with quiz := some r1.1.nextQuizId, nextQuizId := r1.1.nextQuizId + 1 },
    r1.2 ++ [Ev.quizConstruct r1.1.nextQuizId])

/-- `HanziWriter.prototype.quiz` (src/HanziWriter.js lines 104-117). -/
def quizM (s : HWState) (reloadOk : Bool) : HWState × List Ev × Bool :=
  withDataM s reloadOk quizFuncM

/-- Embedding of `HanziWriter.prototype._forwardToQuiz`
(src/HanziWriter.js lines 222-225): `if (!this._quiz) return;
this._quiz[method](...args);`. -/
def forwardToQuizM (s : HWState) (m : QuizMethod) : HWState × List Ev :=
  match s.quiz with
  | none => (s, [])
  | some _ => (s, [Ev.forward m])

/-- The shared shape of the `mousedown`/`touchstart`/`mousemove`/`touchmove`
listeners installed by `_setupListeners` (src/HanziWriter.js lines
195-215): return immediately when loading or when no quiz is active, else
prevent the default action and forward the point to the quiz. -/
def pointerHandlerM (s : HWState) (m : QuizMethod) : HWState × List Ev :=
  if s.isLoadingCharData || s.quiz.isNone then (s, [])
  else
    let r := forwardToQuizM s m
    (r.1, Ev.preventDefault :: r.2)

def mousedownHandlerM (s : HWState) : HWState × List Ev :=
  pointerHandlerM s QuizMethod.startUserStroke

def touchstartHandlerM (s : HWState) : HWState × List Ev :=
  pointerHandlerM s QuizMethod.startUserStroke

def mousemoveHandlerM (s : HWState) : HWState × List Ev :=
  pointerHandlerM s QuizMethod.continueUserStroke

def touchmoveHandlerM (s : HWState) : HWState × List Ev :=
  pointerHandlerM s QuizMethod.continueUserStroke

/-- The `mouseup`/`touchend` listeners (src/HanziWriter.js lines 218-219)
forward directly; `_forwardToQuiz` itself guards on the quiz. -/
def mouseupHandlerM (s : HWState) : HWState × List Ev :=
  forwardToQuizM s QuizMethod.endUserStroke

def touchendHandlerM (s : HWState) : HWState × List Ev :=
  forwardToQuizM s QuizMethod.endUserStroke

/-- The construction effects of the load callback, as a predicate on
events. -/
def isBuildEv : Ev → Bool
  | Ev.buildCharacter => true
  | Ev.buildPositioner => true
  | Ev.buildRenderer => true
  | Ev.buildStateManager => true
  | Ev.mountRenderer => true
  | Ev.renderState => true
  | _ => false

/-- A failed load always leaves the controller without an active quiz:
`setCharacter` cancels the quiz before loading and `quiz()` constructs one
only when data is available.  This is the reachable-state invariant tying
`loadingFailed` to the quiz reference. -/
def QuizLoadInv (s : HWState) : Prop :=
  s.loadingFailed = true → s.quiz = none

/-- A concrete controller state with loaded data, an active quiz and an
in-flight animation generation. -/
def sampleLoaded : HWState :=
  { animator := { nextGen := 1, activeGen := some 0 }
    quiz := some 5
    nextQuizId := 6
    char := 7
    renderer := some ()
    characterData := some ()
    positioner := some ()
    stateManager := some ()
    loadingFailed := false
    isLoadingCharData := false }

/-- A concrete controller state after a failed character-data load. -/
def sampleFailed : HWState :=
  { sampleLoaded with quiz := none, renderer := none, loadingFailed := true }

/-! ### Helper lemmas -/

theorem deadGen_applyAnimOp (a : AnimatorState) (g : Nat) (op : AnimOp)
    (h : DeadGen a g) : DeadGen (applyAnimOp a op) g := by
  obtain ⟨hlt, hne⟩ := h
  cases op with
  | animate =>
    refine ⟨Nat.lt_succ_of_lt hlt, ?_⟩
    simp only [applyAnimOp, Animator.animate]
    intro hcontra
    have := Option.some_injective _ hcontra
    omega
  | cancel =>
    exact ⟨hlt, by simp [applyAnimOp, Animator.cancel]⟩

theorem deadGen_applyAnimOps (a : AnimatorState) (g : Nat) (ops : List AnimOp)
    (h : DeadGen a g) : DeadGen (applyAnimOps a ops) g := by
  induction ops generalizing a with
  | nil => exact h
  | cons op ops ih => exact ih _ (deadGen_applyAnimOp a g op h)

theorem isActive_false_of_deadGen (a : AnimatorState) (g : Nat)
    (h : DeadGen a g) : Animator.isActive a g = false := by
  simp only [Animator.isActive, beq_eq_false_iff_ne, ne_eq]
  exact h.2

theorem animateForeverRun_events (isActiveAt animateOk : Nat → Bool)
    (d fuel i : Nat) :
    ∀ e ∈ (animateForeverRun isActiveAt animateOk d fuel i).2,
      i ≤ e.iter ∧ isActiveAt e.iter = true := by
  induction fuel generalizing i with
  | zero => intro e he; simp [animateForeverRun] at he
  | succ fuel ih =>
    intro e he
    by_cases hact : isActiveAt i = false
    · simp [animateForeverRun, hact] at he
    · rw [Bool.not_eq_false] at hact
      by_cases hok : animateOk i = false
      · simp [animateForeverRun, hact, hok] at he
        subst he
        exact ⟨Nat.le_refl i, hact⟩
      · simp [animateForeverRun, hact, hok] at he
        rcases he with he | he | he
        · subst he; exact ⟨Nat.le_refl i, hact⟩
        · subst he; exact ⟨Nat.le_refl i, hact⟩
        · obtain ⟨hle, hac⟩ := ih (i + 1) e he
          exact ⟨Nat.le_of_succ_le hle, hac⟩

theorem cancelQuizM_quiz (s : HWState) : (cancelQuizM s).1.quiz = none := by
  cases hq : s.quiz <;> simp [cancelQuizM, hq]

theorem cancelQuizM_state (s : HWState) : (cancelQuizM s).1 = { s with quiz := none } := by
  cases hq : s.quiz <;> simp [cancelQuizM, hq]

theorem cancelQuizM_trace (s : HWState) :
    (cancelQuizM s).2 =
      (if s.quiz.isSome then [Ev.quizCancelInvoke] else []) ++ [Ev.quizRefCleared] := by
  cases hq : s.quiz <;> simp [cancelQuizM, hq]

theorem setCharacterM_state (s : HWState) (c : Nat) (loadOk : Bool) :
    (setCharacterM s c loadOk).1 =
      if loadOk then
        { s with
            quiz := none
            char := c
            animator := Animator.cancel s.animator
            loadingFailed := false
            isLoadingCharData := false
            characterData := some ()
            positioner := some ()
            renderer := some ()
            stateManager := some () }
      else
        { s with
            quiz := none
            char := c
            animator := Animator.cancel s.animator
            renderer := none
            loadingFailed := true
            isLoadingCharData := false } := by
  cases loadOk <;>
    simp [setCharacterM, cancelQuizM_state]

theorem setCharacterM_trace (s : HWState) (c : Nat) (loadOk : Bool) :
    (setCharacterM s c loadOk).2 =
      (if s.quiz.isSome then [Ev.quizCancelInvoke] else []) ++ [Ev.quizRefCleared] ++
        [Ev.animatorCancel] ++
        (if s.renderer.isSome then [Ev.rendererDestroy] else []) ++
        (Ev.loadStart c :: (if loadOk then buildEvents else [])) := by
  cases loadOk <;>
    simp [setCharacterM, cancelQuizM_state, cancelQuizM_trace]

theorem setCharacterM_loadingFailed (s : HWState) (c : Nat) (loadOk : Bool) :
    (setCharacterM s c loadOk).1.loadingFailed = !loadOk := by
  cases loadOk <;> simp [setCharacterM_state]

theorem withDataGo_not_failed (func : HWState → HWState × List Ev) (reloadOk : Bool)
    (fuel : Nat) (s : HWState) (h : s.loadingFailed = false) :
    withDataGo func reloadOk (fuel + 1) s = ((func s).1, (func s).2, true) := by
  simp [withDataGo, h]

theorem withDataGo_failed_reload_fails (func : HWState → HWState × List Ev)
    (fuel : Nat) (s : HWState) (h : s.loadingFailed = true) :
    withDataGo func false (fuel + 1) s =
      ((setCharacterM s s.char false).1, (setCharacterM s s.char false).2, false) := by
  simp [withDataGo, h, setCharacterM_loadingFailed]

theorem withDataGo_failed_reload_ok (func : HWState → HWState × List Ev)
    (fuel : Nat) (s : HWState) (h : s.loadingFailed = true) :
    withDataGo func true (fuel + 2) s =
      ((func (setCharacterM s s.char true).1).1,
        (setCharacterM s s.char true).2 ++ (func (setCharacterM s s.char true).1).2,
        true) := by
  have h2 : (setCharacterM s s.char true).1.loadingFailed = false :=
    setCharacterM_loadingFailed s s.char true
  rw [show fuel + 2 = (fuel + 1) + 1 from rfl]
  simp only [withDataGo, h, if_true, h2]
  simp [withDataGo_not_failed _ _ fuel _ h2, h2]

/-- In any list decomposition `A ++ B = pre ++ y :: post` where `y` does not
occur in `A`, the prefix `pre` extends at least over `A`, hence contains
every element of `A`. -/
theorem mem_of_eq_append_cons {α : Type} (A : List α) (x : α) :
    ∀ (B pre post : List α) (y : α), x ∈ A → y ∉ A →
      A ++ B = pre ++ y :: post → x ∈ pre := by
  induction A with
  | nil => intro B pre post y hx _ _; exact absurd hx (List.not_mem_nil x)
  | cons a A ih =>
    intro B pre post y hx hy h
    cases pre with
    | nil =>
      simp only [List.cons_append, List.nil_append] at h
      injection h with h1 h2
      exact (hy (by rw [← h1]; exact List.mem_cons_self a A)).elim
    | cons p pre₂ =>
      simp only [List.cons_append, List.cons.injEq] at h
      rcases List.mem_cons.mp hx with hxa | hxA
      · exact List.mem_cons.mpr (Or.inl (hxa.trans h.1))
      · exact List.mem_cons.mpr
          (Or.inr (ih B pre₂ post y hxA (fun hc => hy (List.mem_cons_of_mem a hc)) h.2))

theorem quizFuncM_trace (s : HWState) :
    (quizFuncM s).2 =
      ((if s.quiz.isSome then [Ev.quizCancelInvoke] else []) ++ [Ev.quizRefCleared]) ++
        [Ev.quizConstruct s.nextQuizId] := by
  cases hq : s.quiz <;> simp [quizFuncM, cancelQuizM, hq]

theorem construct_not_mem_setCharacterM_trace (s : HWState) (c : Nat) (ok : Bool)
    (n : Nat) : Ev.quizConstruct n ∉ (setCharacterM s c ok).2 := by
  rw [setCharacterM_trace]
  cases s.quiz.isSome <;> cases s.renderer.isSome <;> cases ok <;> simp [buildEvents]

theorem refCleared_mem_setCharacterM_trace (s : HWState) (c : Nat) (ok : Bool) :
    Ev.quizRefCleared ∈ (setCharacterM s c ok).2 := by
  rw [setCharacterM_trace]
  simp

theorem cancelInvoke_mem_setCharacterM_trace (s : HWState) (c : Nat) (ok : Bool)
    (h : s.quiz.isSome = true) :
    Ev.quizCancelInvoke ∈ (setCharacterM s c ok).2 := by
  rw [setCharacterM_trace, h]
  simp

theorem withDataM_failed_false (s : HWState) (func : HWState → HWState × List Ev)
    (h : s.loadingFailed = true) :
    withDataM s false func =
      ((setCharacterM s s.char false).1, (setCharacterM s s.char false).2, false) := by
  rw [withDataM, show (2 : Nat) = 1 + 1 from rfl]
  exact withDataGo_failed_reload_fails func 1 s h

theorem withDataM_not_failed (s : HWState) (reloadOk : Bool)
    (func : HWState → HWState × List Ev) (h : s.loadingFailed = false) :
    withDataM s reloadOk func = ((func s).1, (func s).2, true) := by
  rw [withDataM, show (2 : Nat) = 1 + 1 from rfl]
  exact withDataGo_not_failed func reloadOk 1 s h

theorem withDataM_failed_reload_ok (s : HWState) (func : HWState → HWState × List Ev)
    (h : s.loadingFailed = true) :
    withDataM s true func =
      ((func (setCharacterM s s.char true).1).1,
        (setCharacterM s s.char true).2 ++ (func (setCharacterM s s.char true).1).2,
        true) := by
  rw [withDataM, show (2 : Nat) = 0 + 2 from rfl]
  exact withDataGo_failed_reload_ok func 0 s h

theorem animateM_quiz (s : HWState) (k : EffKind) : (animateM s k).1.quiz = s.quiz := rfl

theorem animateM_loadingFailed (s : HWState) (k : EffKind) :
    (animateM s k).1.loadingFailed = s.loadingFailed := rfl

theorem animateWithDataM_quiz (s : HWState) (ok : Bool) (k : EffKind)
    (hinv : QuizLoadInv s) : (animateWithDataM s ok k).1.quiz = s.quiz := by
  by_cases hf : s.loadingFailed = true
  · have hq : s.quiz = none := hinv hf
    cases ok
    · rw [animateWithDataM, withDataM_failed_false _ _ hf]
      simp [setCharacterM_state, hq]
    · rw [animateWithDataM, withDataM_failed_reload_ok _ _ hf]
      rw [animateM_quiz]
      simp [setCharacterM_state, hq]
  · rw [Bool.not_eq_true] at hf
    rw [animateWithDataM, withDataM_not_failed _ _ _ hf]
    exact animateM_quiz s k

theorem cancelQuizM_loadingFailed (s : HWState) :
    (cancelQuizM s).1.loadingFailed = s.loadingFailed := by
  rw [cancelQuizM_state]

theorem setCharacterM_quiz (s : HWState) (c : Nat) (ok : Bool) :
    (setCharacterM s c ok).1.quiz = none := by
  cases ok <;> simp [setCharacterM_state]

theorem quizFuncM_loadingFailed (s : HWState) :
    (quizFuncM s).1.loadingFailed = s.loadingFailed := by
  cases hq : s.quiz <;> simp [quizFuncM, cancelQuizM, hq]

/-- The invariant `QuizLoadInv` (a failed load implies no stored quiz) is
preserved by every state-changing operation of the controller, which
justifies assuming it on reachable states (the constructor starts with
`_quiz = null`). -/
theorem quizLoadInv_preserved (s : HWState) (c : Nat) (ok : Bool) (k : EffKind) :
    QuizLoadInv (cancelQuizM s).1 ∧
    QuizLoadInv (setCharacterM s c ok).1 ∧
    QuizLoadInv (quizM s ok).1 ∧
    QuizLoadInv (animateWithDataM s ok k).1 := by
  refine ⟨fun _ => cancelQuizM_quiz s, fun _ => setCharacterM_quiz s c ok, ?_, ?_⟩
  · by_cases hf : s.loadingFailed = true
    · cases ok
      · rw [quizM, withDataM_failed_false _ _ hf]
        exact fun _ => setCharacterM_quiz s s.char false
      · rw [quizM, withDataM_failed_reload_ok _ _ hf]
        intro hl
        rw [show ((quizFuncM (setCharacterM s s.char true).1).1,
            (setCharacterM s s.char true).2 ++ (quizFuncM (setCharacterM s s.char true).1).2,
            true).1 = (quizFuncM (setCharacterM s s.char true).1).1 from rfl] at hl
        rw [quizFuncM_loadingFailed, setCharacterM_loadingFailed] at hl
        simp at hl
    · rw [Bool.not_eq_true] at hf
      rw [quizM, withDataM_not_failed _ _ _ hf]
      intro hl
      rw [show ((quizFuncM s).1, (quizFuncM s).2, true).1 = (quizFuncM s).1 from rfl] at hl
      rw [quizFuncM_loadingFailed] at hl
      rw [hf] at hl
      exact absurd hl (by simp)
  · by_cases hf : s.loadingFailed = true
    · cases ok
      · rw [animateWithDataM, withDataM_failed_false _ _ hf]
        exact fun _ => setCharacterM_quiz s s.char false
      · rw [animateWithDataM, withDataM_failed_reload_ok _ _ hf]
        intro hl
        rw [show ((animateM (setCharacterM s s.char true).1 k).1,
            (setCharacterM s s.char true).2 ++ (animateM (setCharacterM s s.char true).1 k).2,
            true).1 = (animateM (setCharacterM s s.char true).1 k).1 from rfl] at hl
        rw [animateM_loadingFailed, setCharacterM_loadingFailed] at hl
        simp at hl
    · rw [Bool.not_eq_true] at hf
      rw [animateWithDataM, withDataM_not_failed _ _ _ hf]
      intro hl
      rw [show ((animateM s k).1, (animateM s k).2, true).1 = (animateM s k).1 from rfl] at hl
      rw [animateM_loadingFailed, hf] at hl
      exact absurd hl (by simp)

/-! ### Claim theorems -/

/-- C1: For every animation stream, starting a new animation while a prior
generation `g1` is in flight cancels that generation: `g1` is inactive
immediately after the new `animate`, stays inactive under any further
sequence of stream operations, so a pending visual effect guarded by
`g1`'s token never fires (`runScheduledEffect` returns `none`); and at
most one generation per stream is active at any time. -/
theorem hanzi_new_animation_cancels_prior (a : AnimatorState) (g1 : Nat)
    (hwf : AnimatorWF a) (hact : a.activeGen = some g1) :
    Animator.isActive (Animator.animate a).2 g1 = false ∧
    (∀ ops : List AnimOp,
        Animator.isActive (applyAnimOps (Animator.animate a).2 ops) g1 = false ∧
        Animator.runScheduledEffect (applyAnimOps (Animator.animate a).2 ops) g1 = none) ∧
    (∀ b : AnimatorState, ∀ g g' : Nat,
        Animator.isActive b g = true → Animator.isActive b g' = true → g = g') := by
  have hlt : g1 < a.nextGen := hwf g1 hact
  have hdead : DeadGen (Animator.animate a).2 g1 := by
    refine ⟨Nat.lt_succ_of_lt hlt, ?_⟩
    simp only [Animator.animate]
    intro hc
    have := Option.some_injective _ hc
    omega
  refine ⟨isActive_false_of_deadGen _ _ hdead, ?_, ?_⟩
  · intro ops
    have hd := deadGen_applyAnimOps _ _ ops hdead
    refine ⟨isActive_false_of_deadGen _ _ hd, ?_⟩
    simp [Animator.runScheduledEffect, isActive_false_of_deadGen _ _ hd]
  · intro b g g' hg hg'
    simp only [Animator.isActive, beq_iff_eq] at hg hg'
    rw [hg] at hg'
    exact Option.some_injective _ hg'

/-- Witness for C1: a concrete stream whose generation 0 is in flight,
superseded by a new animation, then subjected to further cancel/animate
operations. -/
theorem hanzi_new_animation_cancels_prior_witness :
    Animator.isActive (Animator.animate { nextGen := 1, activeGen := some 0 }).2 0 = false ∧
    (∀ ops : List AnimOp,
        Animator.isActive
          (applyAnimOps (Animator.animate { nextGen := 1, activeGen := some 0 }).2 ops) 0
          = false ∧
        Animator.runScheduledEffect
          (applyAnimOps (Animator.animate { nextGen := 1, activeGen := some 0 }).2 ops) 0
          = none) ∧
    (∀ b : AnimatorState, ∀ g g' : Nat,
        Animator.isActive b g = true → Animator.isActive b g' = true → g = g') :=
  hanzi_new_animation_cancels_prior { nextGen := 1, activeGen := some 0 } 0
    (by intro g hg; simp at hg; subst hg; decide) rfl

/-- C2: The `animateForever` continuation of `loopCharacterAnimation` checks
generation activity before every iteration: when the generation is inactive
at an iteration the run returns null with nothing scheduled; when the
per-iteration renderer-animate call returns no promise the run returns null
right after that call, scheduling no delay and no further iteration; and
every scheduled event belongs to an iteration at which the generation was
still active. -/
theorem hanzi_loop_reschedules_only_while_active
    (isActiveAt animateOk : Nat → Bool) (d fuel i : Nat) :
    (isActiveAt i = false →
        animateForeverRun isActiveAt animateOk d (fuel + 1) i = (none, [])) ∧
    (isActiveAt i = true → animateOk i = false →
        animateForeverRun isActiveAt animateOk d (fuel + 1) i =
          (none, [LoopEv.animateCall i])) ∧
    (∀ e ∈ (animateForeverRun isActiveAt animateOk d fuel i).2,
        i ≤ e.iter ∧ isActiveAt e.iter = true) := by
  refine ⟨?_, ?_, animateForeverRun_events isActiveAt animateOk d fuel i⟩
  · intro h; simp [animateForeverRun, h]
  · intro h1 h2; simp [animateForeverRun, h1, h2]

/-- Witness for C2: a loop whose generation was cancelled before iteration 3
returns null at once and schedules nothing. -/
theorem hanzi_loop_reschedules_only_while_active_witness :
    animateForeverRun (fun j => decide (j < 1)) (fun _ => true) 100 (2 + 1) 3 =
      (none, []) :=
  (hanzi_loop_reschedules_only_while_active
    (fun j => decide (j < 1)) (fun _ => true) 100 2 3).1 rfl

/-- C3: `setCharacter(char)` cancels the active quiz (invoking its `cancel`
when one exists, then clearing the reference), cancels the animator's
current generation, and destroys the previous renderer when present, all
strictly before the load of the new character's data starts and hence
before any build, mount or render of the new data, as the exact effect
trace shows; the resulting state holds no quiz and no active animation
generation. -/
theorem hanzi_setCharacter_cancels_before_loading (s : HWState) (c : Nat) (ok : Bool) :
    (setCharacterM s c ok).2 =
      (if s.quiz.isSome then [Ev.quizCancelInvoke] else []) ++ [Ev.quizRefCleared] ++
        [Ev.animatorCancel] ++
        (if s.renderer.isSome then [Ev.rendererDestroy] else []) ++
        (Ev.loadStart c :: (if ok then buildEvents else [])) ∧
    (setCharacterM s c ok).1.quiz = none ∧
    (setCharacterM s c ok).1.animator.activeGen = none := by
  refine ⟨setCharacterM_trace s c ok, ?_, ?_⟩ <;>
    cases ok <;> simp [setCharacterM_state, Animator.cancel]

/-- C4: While character-data loading has failed, no quiz or animation action
runs: when the retry triggered by `_withData` also fails, all seven public
operations report their action function as not invoked; in general a
function invocation out of a failed state implies the reload succeeded;
and a `setCharacter` whose load fails resolves without constructing the
character model, positioner, state manager or renderer (no build, mount or
render event in its trace, the renderer reference cleared, the previous
character model simply left in place). -/
theorem hanzi_load_failure_is_inert (s : HWState) (c : Nat)
    (hfail : s.loadingFailed = true) :
    ((showCharacterM s false).2.2 = false ∧
      (hideCharacterM s false).2.2 = false ∧
      (animateCharacterM s false).2.2 = false ∧
      (loopCharacterAnimationM s false).2.2 = false ∧
      (showOutlineM s false).2.2 = false ∧
      (hideOutlineM s false).2.2 = false ∧
      (quizM s false).2.2 = false) ∧
    (∀ (ok : Bool) (func : HWState → HWState × List Ev),
        (withDataM s ok func).2.2 = true → ok = true) ∧
    ((setCharacterM s c false).1.renderer = none ∧
      (setCharacterM s c false).1.characterData = s.characterData ∧
      (∀ e ∈ (setCharacterM s c false).2, isBuildEv e = false)) := by
  have hcf : (cancelQuizM s).1.loadingFailed = true := by
    rw [cancelQuizM_loadingFailed]; exact hfail
  refine ⟨⟨?_, ?_, ?_, ?_, ?_, ?_, ?_⟩, ?_, ?_, ?_, ?_⟩
  · rw [showCharacterM, animateWithDataM, withDataM_failed_false _ _ hfail]
  · rw [hideCharacterM, animateWithDataM, withDataM_failed_false _ _ hfail]
  · rw [animateCharacterM, animateWithDataM, withDataM_failed_false _ _ hcf]
  · rw [loopCharacterAnimationM, animateWithDataM, withDataM_failed_false _ _ hcf]
  · rw [showOutlineM, animateWithDataM, withDataM_failed_false _ _ hfail]
  · rw [hideOutlineM, animateWithDataM, withDataM_failed_false _ _ hfail]
  · rw [quizM, withDataM_failed_false _ _ hfail]
  · intro ok func hinv
    cases ok
    · rw [withDataM_failed_false _ _ hfail] at hinv
      exact absurd hinv (by simp)
    · rfl
  · simp [setCharacterM_state]
  · simp [setCharacterM_state]
  · rw [setCharacterM_trace]
    cases hq : s.quiz.isSome <;> cases hr : s.renderer.isSome <;>
      simp [hq, hr, isBuildEv]

/-- Witness for C4 at a concrete failed state. -/
theorem hanzi_load_failure_is_inert_witness :
    (showCharacterM sampleFailed false).2.2 = false ∧
    (hideCharacterM sampleFailed false).2.2 = false ∧
    (animateCharacterM sampleFailed false).2.2 = false ∧
    (loopCharacterAnimationM sampleFailed false).2.2 = false ∧
    (showOutlineM sampleFailed false).2.2 = false ∧
    (hideOutlineM sampleFailed false).2.2 = false ∧
    (quizM sampleFailed false).2.2 = false :=
  (hanzi_load_failure_is_inert sampleFailed 3 rfl).1

/-- C5: whenever `quiz()` constructs and stores a new Quiz instance, the
previously stored quiz was cancelled first: in every decomposition of the
call's trace at a quiz-construction event, the prefix already contains the
clearing of the quiz reference, and the invocation of the old quiz's
`cancel()` whenever one was stored. -/
theorem hanzi_quiz_cancels_previous_before_construct (s : HWState) (ok : Bool)
    (pre post : List Ev) (n : Nat)
    (h : (quizM s ok).2.1 = pre ++ Ev.quizConstruct n :: post) :
    Ev.quizRefCleared ∈ pre ∧
      (s.quiz.isSome = true → Ev.quizCancelInvoke ∈ pre) := by
  by_cases hf : s.loadingFailed = true
  · cases ok
    · exfalso
      have hmem : Ev.quizConstruct n ∈ (quizM s false).2.1 := by
        rw [h]; simp
      rw [quizM, withDataM_failed_false _ _ hf] at hmem
      exact construct_not_mem_setCharacterM_trace s s.char false n hmem
    · have hq1 : (setCharacterM s s.char true).1.quiz = none := by
        simp [setCharacterM_state]
      have htr : (quizM s true).2.1 =
          ((setCharacterM s s.char true).2 ++ [Ev.quizRefCleared]) ++
            [Ev.quizConstruct (setCharacterM s s.char true).1.nextQuizId] := by
        rw [quizM, withDataM_failed_reload_ok _ _ hf]
        rw [show ((setCharacterM s s.char true).1,
            (setCharacterM s s.char true).2 ++
              (quizFuncM (setCharacterM s s.char true).1).2, true).2.1 =
          (setCharacterM s s.char true).2 ++
            (quizFuncM (setCharacterM s s.char true).1).2 from rfl]
        rw [quizFuncM_trace, hq1]
        simp
      rw [htr] at h
      have hnot : Ev.quizConstruct n ∉
          (setCharacterM s s.char true).2 ++ [Ev.quizRefCleared] := by
        intro hc
        rcases List.mem_append.mp hc with hc | hc
        · exact construct_not_mem_setCharacterM_trace s s.char true n hc
        · simp at hc
      constructor
      · exact mem_of_eq_append_cons _ Ev.quizRefCleared _ pre post _
          (List.mem_append.mpr (Or.inr (by simp))) hnot h
      · intro hq
        exact mem_of_eq_append_cons _ Ev.quizCancelInvoke _ pre post _
          (List.mem_append.mpr
            (Or.inl (cancelInvoke_mem_setCharacterM_trace s s.char true hq))) hnot h
  · rw [Bool.not_eq_true] at hf
    have htr : (quizM s ok).2.1 =
        ((if s.quiz.isSome then [Ev.quizCancelInvoke] else []) ++ [Ev.quizRefCleared]) ++
          [Ev.quizConstruct s.nextQuizId] := by
      rw [quizM, withDataM_not_failed _ _ _ hf]
      exact quizFuncM_trace s
    rw [htr] at h
    have hnot : Ev.quizConstruct n ∉
        (if s.quiz.isSome then [Ev.quizCancelInvoke] else []) ++ [Ev.quizRefCleared] := by
      cases s.quiz.isSome <;> simp
    constructor
    · exact mem_of_eq_append_cons _ Ev.quizRefCleared _ pre post _
        (List.mem_append.mpr (Or.inr (by simp))) hnot h
    · intro hq
      exact mem_of_eq_append_cons _ Ev.quizCancelInvoke _ pre post _
        (List.mem_append.mpr (Or.inl (by simp [hq]))) hnot h

/-- Witness for C5: in the concrete loaded state with quiz 5 active, the
trace of `quiz()` decomposes at the construction of quiz 6, and both the
cancel invocation and the reference clearing sit in the prefix. -/
theorem hanzi_quiz_cancels_previous_before_construct_witness :
    Ev.quizRefCleared ∈ [Ev.quizCancelInvoke, Ev.quizRefCleared] ∧
      (sampleLoaded.quiz.isSome = true →
        Ev.quizCancelInvoke ∈ [Ev.quizCancelInvoke, Ev.quizRefCleared]) :=
  hanzi_quiz_cancels_previous_before_construct sampleLoaded true
    [Ev.quizCancelInvoke, Ev.quizRefCleared] [] 6 rfl

/-- C6: pointer input arriving while no quiz is active is a silent no-op:
with `this._quiz` null, all of the mousedown, touchstart, mousemove,
touchmove, mouseup and touchend handlers, as well as `_forwardToQuiz` for
any of `startUserStroke`/`continueUserStroke`/`endUserStroke`, return with
the state unchanged and no effect (and, being total functions, without
error). -/
theorem hanzi_pointer_input_without_quiz_noop (s : HWState) (m : QuizMethod)
    (h : s.quiz = none) :
    mousedownHandlerM s = (s, []) ∧ touchstartHandlerM s = (s, []) ∧
    mousemoveHandlerM s = (s, []) ∧ touchmoveHandlerM s = (s, []) ∧
    mouseupHandlerM s = (s, []) ∧ touchendHandlerM s = (s, []) ∧
    forwardToQuizM s m = (s, []) := by
  simp [mousedownHandlerM, touchstartHandlerM, mousemoveHandlerM, touchmoveHandlerM,
    mouseupHandlerM, touchendHandlerM, pointerHandlerM, forwardToQuizM, h]

/-- Witness for C6 at a concrete quiz-less state. -/
theorem hanzi_pointer_input_without_quiz_noop_witness :
    mousedownHandlerM sampleFailed = (sampleFailed, []) ∧
    touchstartHandlerM sampleFailed = (sampleFailed, []) ∧
    mousemoveHandlerM sampleFailed = (sampleFailed, []) ∧
    touchmoveHandlerM sampleFailed = (sampleFailed, []) ∧
    mouseupHandlerM sampleFailed = (sampleFailed, []) ∧
    touchendHandlerM sampleFailed = (sampleFailed, []) ∧
    forwardToQuizM sampleFailed QuizMethod.continueUserStroke = (sampleFailed, []) :=
  hanzi_pointer_input_without_quiz_noop sampleFailed QuizMethod.continueUserStroke rfl

/-- C7: `cancelQuiz()` is idempotent: the state after calling it twice
equals the state after calling it once; the first call invokes the active
quiz's `cancel()` (when one exists) and clears the reference, and a second
call performs no quiz cancellation (its only effect is re-assigning the
already-null reference). -/
theorem hanzi_cancelQuiz_idempotent (s : HWState) :
    (cancelQuizM (cancelQuizM s).1).1 = (cancelQuizM s).1 ∧
    (cancelQuizM s).1.quiz = none ∧
    (s.quiz.isSome = true →
        (cancelQuizM s).2 = [Ev.quizCancelInvoke, Ev.quizRefCleared]) ∧
    (cancelQuizM (cancelQuizM s).1).2 = [Ev.quizRefCleared] := by
  obtain ⟨a, q, nq, c, r, cd, p, sm, lf, il⟩ := s
  cases q <;> simp [cancelQuizM]

/-- Witness for C7 at a concrete state with an active quiz. -/
theorem hanzi_cancelQuiz_idempotent_witness :
    (cancelQuizM (cancelQuizM sampleLoaded).1).1 = (cancelQuizM sampleLoaded).1 ∧
    (cancelQuizM sampleLoaded).1.quiz = none ∧
    (sampleLoaded.quiz.isSome = true →
        (cancelQuizM sampleLoaded).2 = [Ev.quizCancelInvoke, Ev.quizRefCleared]) ∧
    (cancelQuizM (cancelQuizM sampleLoaded).1).2 = [Ev.quizRefCleared] :=
  hanzi_cancelQuiz_idempotent sampleLoaded

/-- C10: `animateCharacter` and `loopCharacterAnimation` cancel any active
quiz before starting (invoking its `cancel()` and leaving the stored
reference null), while `showCharacter`, `hideCharacter`, `showOutline` and
`hideOutline` leave the quiz reference unchanged (under the reachable-state
invariant that a failed load implies no active quiz, so the data-reload
path cannot be reached with a quiz still stored). -/
theorem hanzi_animation_api_quiz_effect (s : HWState) (ok : Bool)
    (hinv : QuizLoadInv s) :
    (animateCharacterM s ok).1.quiz = none ∧
    (loopCharacterAnimationM s ok).1.quiz = none ∧
    (s.quiz.isSome = true →
        Ev.quizCancelInvoke ∈ (animateCharacterM s ok).2.1 ∧
        Ev.quizCancelInvoke ∈ (loopCharacterAnimationM s ok).2.1) ∧
    ((showCharacterM s ok).1.quiz = s.quiz ∧
      (hideCharacterM s ok).1.quiz = s.quiz ∧
      (showOutlineM s ok).1.quiz = s.quiz ∧
      (hideOutlineM s ok).1.quiz = s.quiz) := by
  have hcq : (cancelQuizM s).1.quiz = none := cancelQuizM_quiz s
  have hcinv : QuizLoadInv (cancelQuizM s).1 := fun _ => hcq
  refine ⟨?_, ?_, ?_, ?_, ?_, ?_, ?_⟩
  · rw [animateCharacterM]
    rw [show ((animateWithDataM (cancelQuizM s).1 ok EffKind.charAnimate).1,
        (cancelQuizM s).2 ++ (animateWithDataM (cancelQuizM s).1 ok EffKind.charAnimate).2.1,
        (animateWithDataM (cancelQuizM s).1 ok EffKind.charAnimate).2.2).1 =
      (animateWithDataM (cancelQuizM s).1 ok EffKind.charAnimate).1 from rfl]
    rw [animateWithDataM_quiz _ _ _ hcinv]
    exact hcq
  · rw [loopCharacterAnimationM]
    rw [show ((animateWithDataM (cancelQuizM s).1 ok EffKind.loopAnimate).1,
        (cancelQuizM s).2 ++ (animateWithDataM (cancelQuizM s).1 ok EffKind.loopAnimate).2.1,
        (animateWithDataM (cancelQuizM s).1 ok EffKind.loopAnimate).2.2).1 =
      (animateWithDataM (cancelQuizM s).1 ok EffKind.loopAnimate).1 from rfl]
    rw [animateWithDataM_quiz _ _ _ hcinv]
    exact hcq
  · intro hq
    have hmem : Ev.quizCancelInvoke ∈ (cancelQuizM s).2 := by
      rw [cancelQuizM_trace, hq]; simp
    constructor
    · rw [animateCharacterM]
      exact List.mem_append.mpr (Or.inl hmem)
    · rw [loopCharacterAnimationM]
      exact List.mem_append.mpr (Or.inl hmem)
  · exact animateWithDataM_quiz s ok EffKind.charShow hinv
  · exact animateWithDataM_quiz s ok EffKind.charHide hinv
  · exact animateWithDataM_quiz s ok EffKind.outlineShow hinv
  · exact animateWithDataM_quiz s ok EffKind.outlineHide hinv

/-- Witness for C10 at the concrete loaded state with quiz 5 active. -/
theorem hanzi_animation_api_quiz_effect_witness :
    (animateCharacterM sampleLoaded true).1.quiz = none ∧
    (loopCharacterAnimationM sampleLoaded true).1.quiz = none ∧
    (sampleLoaded.quiz.isSome = true →
        Ev.quizCancelInvoke ∈ (animateCharacterM sampleLoaded true).2.1 ∧
        Ev.quizCancelInvoke ∈ (loopCharacterAnimationM sampleLoaded true).2.1) ∧
    ((showCharacterM sampleLoaded true).1.quiz = sampleLoaded.quiz ∧
      (hideCharacterM sampleLoaded true).1.quiz = sampleLoaded.quiz ∧
      (showOutlineM sampleLoaded true).1.quiz = sampleLoaded.quiz ∧
      (hideOutlineM sampleLoaded true).1.quiz = sampleLoaded.quiz) :=
  hanzi_animation_api_quiz_effect sampleLoaded true (by intro hc; simp [sampleLoaded] at hc)

/-- C8: `_fillWidthAndHeight` returns a copy of the options with width and
height filled in.  Supplied means JS-truthy (present and nonzero): when
exactly one of width/height is supplied the missing one is set equal to
the supplied one; when neither is supplied both become the minimum of the
canvas bounding rectangle's dimensions; when both are supplied they are
kept unchanged; and the unrelated fields of the copy always equal those of
the input, which itself is never mutated (the embedding is a pure
function, mirroring the `assign(\x7b\x7d, options)` copy in the source). -/
theorem hanzi_fillWidthAndHeight_spec (rectW rectH : ℚ) (o : DisplayOpts) :
    (truthy o.width = true → truthy o.height = false →
        fillWidthAndHeight rectW rectH o = { o with height := o.width }) ∧
    (truthy o.height = true → truthy o.width = false →
        fillWidthAndHeight rectW rectH o = { o with width := o.height }) ∧
    (truthy o.width = false → truthy o.height = false →
        (fillWidthAndHeight rectW rectH o).width = some (min rectW rectH) ∧
        (fillWidthAndHeight rectW rectH o).height = some (min rectW rectH)) ∧
    (truthy o.width = true → truthy o.height = true →
        fillWidthAndHeight rectW rectH o = o) ∧
    (fillWidthAndHeight rectW rectH o).padding = o.padding := by
  refine ⟨?_, ?_, ?_, ?_, ?_⟩
  · intro hw hh; simp [fillWidthAndHeight, hw, hh]
  · intro hh hw; simp [fillWidthAndHeight, hw, hh]
  · intro hw hh; simp [fillWidthAndHeight, hw, hh]
  · intro hw hh; simp [fillWidthAndHeight, hw, hh]
  · cases hw : truthy o.width <;> cases hh : truthy o.height <;>
      simp [fillWidthAndHeight, hw, hh]

/-- Witness for C8: width 100 supplied, height missing, on a 40 by 60
canvas rectangle. -/
theorem hanzi_fillWidthAndHeight_spec_witness :
    truthy (some (100 : ℚ)) = true ∧ truthy (none : Option ℚ) = false ∧
    fillWidthAndHeight 40 60 { width := some 100, height := none, padding := 20 } =
      { width := some 100, height := some 100, padding := 20 } :=
  ⟨by decide, by decide,
    (hanzi_fillWidthAndHeight_spec 40 60
        { width := some 100, height := none, padding := 20 }).1 (by decide) (by decide)⟩

/-- C9: the deprecated duration options backfill the speed options: when
`strokeAnimationDuration` is supplied (JS-truthy) without a truthy
`strokeAnimationSpeed`, the effective `strokeAnimationSpeed` is 500
divided by the supplied duration; likewise `strokeHighlightSpeed` becomes
500 divided by `strokeHighlightDuration` when only the duration is
supplied; and an explicitly supplied (truthy) speed always takes
precedence, suppressing any duration-derived value. -/
theorem hanzi_assignOptions_duration_backfill (o : RawOpts) :
    (∀ d : ℚ, o.strokeAnimationDuration = some d →
        truthy o.strokeAnimationDuration = true →
        truthy o.strokeAnimationSpeed = false →
        (assignOptions o).strokeAnimationSpeed = 500 / d) ∧
    (∀ d : ℚ, o.strokeHighlightDuration = some d →
        truthy o.strokeHighlightDuration = true →
        truthy o.strokeHighlightSpeed = false →
        (assignOptions o).strokeHighlightSpeed = 500 / d) ∧
    (∀ v : ℚ, o.strokeAnimationSpeed = some v →
        truthy o.strokeAnimationSpeed = true →
        (assignOptions o).strokeAnimationSpeed = v) ∧
    (∀ v : ℚ, o.strokeHighlightSpeed = some v →
        truthy o.strokeHighlightSpeed = true →
        (assignOptions o).strokeHighlightSpeed = v) := by
  refine ⟨?_, ?_, ?_, ?_⟩
  · intro d hd hdt hsf
    rw [hd] at hdt
    simp [assignOptions, hd, hdt, hsf]
    split <;> rfl
  · intro d hd hdt hsf
    rw [hd] at hdt
    simp [assignOptions, hd, hdt, hsf]
    split <;> rfl
  · intro v hv hst
    rw [hv] at hst
    simp [assignOptions, hv, hst]
    split <;> rfl
  · intro v hv hst
    rw [hv] at hst
    simp [assignOptions, hv, hst]
    split <;> rfl

/-- Witness for C9: only `strokeAnimationDuration: 250` supplied yields an
effective `strokeAnimationSpeed` of 2. -/
theorem hanzi_assignOptions_duration_backfill_witness :
    (assignOptions
        { strokeAnimationSpeed := none, strokeAnimationDuration := some 250,
          strokeHighlightSpeed := none,
          strokeHighlightDuration := none }).strokeAnimationSpeed = 500 / 250 :=
  (hanzi_assignOptions_duration_backfill
      { strokeAnimationSpeed := none, strokeAnimationDuration := some 250,
        strokeHighlightSpeed := none, strokeHighlightDuration := none }).1
    250 rfl (by decide) (by decide)

end HW
